import Mathlib

/-!
Shallow embedding of `src/gpu_rs.rs`, the host side of the GPU radix sorter
(struct `GPURSSorter`), together with theorems checking the specification's
claims about it.

Modelling conventions:
* Rust `usize` values are natural numbers below `2 ^ 64`; every `usize`
  addition, subtraction and multiplication appearing in the source is taken
  modulo `2 ^ 64` (two's-complement wrapping, the semantics of a release
  build).  Division by the nonzero constants of the source never wraps and
  never panics, so it is plain `Nat` division.
* `as u32` casts are reduction modulo `2 ^ 32`.
* A `panic!` or failed `assert!` is modelled by returning `none` (or by a
  dedicated outcome constructor for the constructor loop).
* A `wgpu::CommandEncoder` is modelled as the list of compute dispatches
  recorded so far; `dispatch_workgroups(x, 1, 1)` contributes one list entry
  holding the pipeline and `x` (the `y` and `z` counts are always 1 in the
  source and are not represented).
* The expression `(n as f32 / histogram_wg_size as f32).ceil() as u32` is
  modelled exactly: `n as f32` rounds `n` to the nearest number with a 24-bit
  significand (ties to even); dividing that value by 256 is exact in `f32`
  (a power-of-two exponent shift of a normal number); `.ceil()` of the exact
  quotient is the ceiling division of the rounded value by 256, itself exactly
  representable; the final `as u32` saturates at `2 ^ 32 - 1`.
-/

namespace GpuRs

/-- Modulus of the 64-bit `usize` type. -/
def usizeSize : Nat := 2 ^ 64

/-- Modulus of `u32`. -/
def u32Size : Nat := 2 ^ 32

/-- Wrapping `usize` addition. -/
def usizeAdd (a b : Nat) : Nat := (a + b) % usizeSize

/-- Wrapping `usize` subtraction (operands below `2 ^ 64`). -/
def usizeSub (a b : Nat) : Nat := (a + usizeSize - b) % usizeSize

/-- Wrapping `usize` multiplication. -/
def usizeMul (a b : Nat) : Nat := (a * b) % usizeSize

/-- Truncating `as u32` cast. -/
def u32cast (a : Nat) : Nat := a % u32Size

/-- Source line 19: `const histogram_wg_size: usize = 256;`. -/
def histogram_wg_size : Nat := 256

/-- Source line 20: `const rs_radix_log2: usize = 8;`. -/
def rs_radix_log2 : Nat := 8

/-- Source line 21: `const rs_radix_size: usize = 1 << rs_radix_log2;`. -/
def rs_radix_size : Nat := 2 ^ rs_radix_log2

/-- Source line 22: `const rs_keyval_size: usize = 32 / rs_radix_log2;`. -/
def rs_keyval_size : Nat := 32 / rs_radix_log2

/-- Source line 23: `const rs_histogram_block_rows: usize = 15;`. -/
def rs_histogram_block_rows : Nat := 15

/-- Source line 24: `const rs_scatter_block_rows: usize = rs_histogram_block_rows;`. -/
def rs_scatter_block_rows : Nat := rs_histogram_block_rows

/-- Source line 25: `const prefix_wg_size: usize = 1 << 7;`. -/
def prefix_wg_size : Nat := 2 ^ 7

/-- Source line 26: `const scatter_wg_size: usize = 1 << 8;`. -/
def scatter_wg_size : Nat := 2 ^ 8

/-- Result record of `GPURSSorter::get_scatter_histogram_sizes` (the source
returns the six values as a tuple, in this order). -/
structure ScatterHistogramSizes where
  scatter_block_kvs : Nat
  scatter_blocks_ru : Nat
  count_ru_scatter : Nat
  histo_block_kvs : Nat
  histo_blocks_ru : Nat
  count_ru_histo : Nat
deriving DecidableEq, Repr

/-- Embedding of `GPURSSorter::get_scatter_histogram_sizes` (source lines
231-241), with every `usize` operation wrapping modulo `2 ^ 64`. -/
def get_scatter_histogram_sizes (keysize : Nat) : ScatterHistogramSizes :=
  let scatter_block_kvs := usizeMul histogram_wg_size rs_scatter_block_rows
  let scatter_blocks_ru := usizeSub (usizeAdd keysize scatter_block_kvs) 1 / scatter_block_kvs
  let count_ru_scatter := usizeMul scatter_blocks_ru scatter_block_kvs
  let histo_block_kvs := usizeMul histogram_wg_size rs_histogram_block_rows
  let histo_blocks_ru := usizeSub (usizeAdd count_ru_scatter histo_block_kvs) 1 / histo_block_kvs
  let count_ru_histo := usizeMul histo_blocks_ru histo_block_kvs
  ⟨scatter_block_kvs, scatter_blocks_ru, count_ru_scatter,
    histo_block_kvs, histo_blocks_ru, count_ru_histo⟩

/-- The size-calculator algorithm exactly as the spec words it (§4.1 steps
1-6), written with exact natural-number arithmetic: `⌈a / b⌉ = (a + b - 1) / b`.
Used only to compare the source function against the spec. -/
def spec_get_scatter_histogram_sizes (keysize : Nat) : ScatterHistogramSizes :=
  let scatter_block_kvs := histogram_wg_size * rs_scatter_block_rows
  let scatter_blocks_ru := (keysize + scatter_block_kvs - 1) / scatter_block_kvs
  let count_ru_scatter := scatter_blocks_ru * scatter_block_kvs
  let histo_block_kvs := histogram_wg_size * rs_histogram_block_rows
  let histo_blocks_ru := (count_ru_scatter + histo_block_kvs - 1) / histo_block_kvs
  let count_ru_histo := histo_blocks_ru * histo_block_kvs
  ⟨scatter_block_kvs, scatter_blocks_ru, count_ru_scatter,
    histo_block_kvs, histo_blocks_ru, count_ru_histo⟩

/-- Helper: on inputs up to `2 ^ 64 - 4096` no `usize` operation of the size
calculator wraps, and both rounding levels collapse to
`B = ⌈(keysize + 3839) / 3840⌉` blocks of 3840 key-values. -/
lemma get_sizes_eval (N : Nat) (h : N ≤ 2 ^ 64 - 4096) :
    get_scatter_histogram_sizes N =
      ⟨3840, (N + 3839) / 3840, (N + 3839) / 3840 * 3840,
        3840, (N + 3839) / 3840, (N + 3839) / 3840 * 3840⟩ := by
  have hB : (N + 3839) / 3840 * 3840 ≤ N + 3839 := Nat.div_mul_le_self _ _
  have hBm : (N + 3839) / 3840 * 3840 % 3840 = 0 := Nat.mul_mod_left _ _
  have hcs : (N + 3839) / 3840 * 3840 ≤ 2 ^ 64 - 4096 := by omega
  simp only [get_scatter_histogram_sizes, usizeAdd, usizeSub, usizeMul, usizeSize,
    histogram_wg_size, rs_scatter_block_rows, rs_histogram_block_rows]
  have e1 : (256 * 15) % 2 ^ 64 = 3840 := by norm_num
  rw [e1]
  have e2 : (N + 3840) % 2 ^ 64 = N + 3840 := Nat.mod_eq_of_lt (by omega)
  rw [e2]
  have e3 : (N + 3840 + 2 ^ 64 - 1) % 2 ^ 64 = N + 3839 := by
    have : N + 3840 + 2 ^ 64 - 1 = (N + 3839) + 1 * 2 ^ 64 := by omega
    rw [this, Nat.add_mul_mod_self_right, Nat.mod_eq_of_lt (by omega)]
  rw [e3]
  have e4 : (N + 3839) / 3840 * 3840 % 2 ^ 64 = (N + 3839) / 3840 * 3840 :=
    Nat.mod_eq_of_lt (by omega)
  rw [e4]
  have e5 : ((N + 3839) / 3840 * 3840 + 3840) % 2 ^ 64
      = (N + 3839) / 3840 * 3840 + 3840 := Nat.mod_eq_of_lt (by omega)
  rw [e5]
  have e6 : ((N + 3839) / 3840 * 3840 + 3840 + 2 ^ 64 - 1) % 2 ^ 64
      = (N + 3839) / 3840 * 3840 + 3839 := by
    have : (N + 3839) / 3840 * 3840 + 3840 + 2 ^ 64 - 1
        = ((N + 3839) / 3840 * 3840 + 3839) + 1 * 2 ^ 64 := by omega
    rw [this, Nat.add_mul_mod_self_right, Nat.mod_eq_of_lt (by omega)]
  rw [e6]
  have e7 : ((N + 3839) / 3840 * 3840 + 3839) / 3840 = (N + 3839) / 3840 := by
    rw [Nat.add_comm, Nat.add_mul_div_right _ _ (by norm_num : (0:Nat) < 3840)]
    norm_num
  rw [e7, e4]

/-- The untyped state label of the calibration loop in `GPURSSorter::new`
(source line 59: `enum state {init, increasing, decreasing}`). -/
inductive state
  | init
  | increasing
  | decreasing
deriving DecidableEq, Repr

/-- Source line 56: `let sizes = vec![1, 16, 32, 64, 128];`. -/
def sizes : List Nat := [1, 16, 32, 64, 128]

/-- Outcome of `GPURSSorter::new`: either a sorter whose `subgroup_size` is
the given width, or the `panic!` on line 63. -/
inductive NewOutcome
  | sorter (subgroup_size : Nat)
  | panicked
deriving DecidableEq, Repr

/-- One iteration of the `while true` calibration loop of `GPURSSorter::new`
(source lines 61-79), parameterised by the outcome of the correctness probe
`test_sort` at each candidate width: either the next `(cur_size, state)` pair
or a terminal outcome.  `cur_size` is a `usize`, so its decrement wraps
modulo `2 ^ 64`; the guard is the source's `cur_size < 0 || cur_size >=
sizes.len()`, and the `increasing`/failure arm rebuilds the sorter with
`sizes[cur_size - 1]` before breaking. -/
def newLoopStep (probe : Nat → Bool) (cur_size : Nat) (s : state) :
    (Nat × state) ⊕ NewOutcome :=
  if cur_size < 0 ∨ sizes.length ≤ cur_size then .inr .panicked
  else
    let sort_success := probe (sizes.getD cur_size 0)
    match s with
    | .init =>
      if sort_success then .inl (usizeAdd cur_size 1, .increasing)
      else .inl (usizeSub cur_size 1, .decreasing)
    | .increasing =>
      if sort_success then .inl (usizeAdd cur_size 1, .increasing)
      else .inr (.sorter (sizes.getD (cur_size - 1) 0))
    | .decreasing =>
      if sort_success then .inr (.sorter (sizes.getD cur_size 0))
      else .inl (usizeSub cur_size 1, .decreasing)

/-- The `while true` loop itself: iterate `newLoopStep` until it is terminal.
`fuel` bounds the number of iterations and `none` means the fuel ran out
(the theorems show fuel 4 always suffices). -/
def newLoop (probe : Nat → Bool) : Nat → Nat → state → Option NewOutcome
  | 0, _, _ => none
  | fuel + 1, cur_size, s =>
    match newLoopStep probe cur_size s with
    | .inr o => some o
    | .inl (cur_size2, s2) => newLoop probe fuel cur_size2 s2

/-- Embedding of `GPURSSorter::new` (source lines 54-82): the loop starts at
ladder index 2 in state `init`.  Fuel 6 exceeds the longest possible run of
the loop (4 iterations, as proved below). -/
def GPURSSorter_new (probe : Nat → Bool) : Option NewOutcome :=
  newLoop probe 6 2 .init

/-- Closed form of the calibration result as a decision tree over the five
probe outcomes. -/
def newResult (probe : Nat → Bool) : NewOutcome :=
  if probe 32 then
    if probe 64 then
      if probe 128 then .panicked else .sorter 64
    else .sorter 32
  else
    if probe 16 then .sorter 16
    else if probe 1 then .sorter 1
    else .panicked

/-- Helper: one unfolding of the loop. -/
lemma newLoop_succ (probe : Nat → Bool) (f c : Nat) (s : state) :
    newLoop probe (f + 1) c s =
      match newLoopStep probe c s with
      | .inr o => some o
      | .inl (c2, s2) => newLoop probe f c2 s2 := rfl

/-- Helper: with fuel 4 the loop computes `newResult`. -/
lemma newLoop_init_eval (probe : Nat → Bool) :
    newLoop probe 4 2 .init = some (newResult probe) := by
  have t1 : newLoopStep probe 2 .init =
      if probe 32 then .inl (3, .increasing) else .inl (1, .decreasing) := rfl
  have t2 : newLoopStep probe 3 .increasing =
      if probe 64 then .inl (4, .increasing) else .inr (.sorter 32) := rfl
  have t3 : newLoopStep probe 4 .increasing =
      if probe 128 then .inl (5, .increasing) else .inr (.sorter 64) := rfl
  have t4 : newLoopStep probe 5 .increasing = .inr .panicked := rfl
  have t5 : newLoopStep probe 1 .decreasing =
      if probe 16 then .inr (.sorter 16) else .inl (0, .decreasing) := rfl
  have t6 : newLoopStep probe 0 .decreasing =
      if probe 1 then .inr (.sorter 1)
      else .inl (18446744073709551615, .decreasing) := rfl
  have t7 : newLoopStep probe 18446744073709551615 .decreasing = .inr .panicked := rfl
  have s4 : newLoop probe 1 5 .increasing = some .panicked := by
    rw [show (1:Nat) = 0 + 1 from rfl, newLoop_succ, t4]
  have s7 : newLoop probe 1 18446744073709551615 .decreasing = some .panicked := by
    rw [show (1:Nat) = 0 + 1 from rfl, newLoop_succ, t7]
  have s3 : newLoop probe 2 4 .increasing =
      if probe 128 then some .panicked else some (.sorter 64) := by
    rw [show (2:Nat) = 1 + 1 from rfl, newLoop_succ, t3]
    rcases hb : probe 128 <;> simp [hb, s4]
  have s2 : newLoop probe 3 3 .increasing =
      if probe 64 then (if probe 128 then some .panicked else some (.sorter 64))
      else some (.sorter 32) := by
    rw [show (3:Nat) = 2 + 1 from rfl, newLoop_succ, t2]
    rcases hb : probe 64 <;> simp [hb, s3]
  have s6 : newLoop probe 2 0 .decreasing =
      if probe 1 then some (.sorter 1) else some .panicked := by
    rw [show (2:Nat) = 1 + 1 from rfl, newLoop_succ, t6]
    rcases hb : probe 1 <;> simp [hb, s7]
  have s5 : newLoop probe 3 1 .decreasing =
      if probe 16 then some (.sorter 16)
      else (if probe 1 then some (.sorter 1) else some .panicked) := by
    rw [show (3:Nat) = 2 + 1 from rfl, newLoop_succ, t5]
    rcases hb : probe 16 <;> simp [hb, s6]
  rw [show (4:Nat) = 3 + 1 from rfl, newLoop_succ, t1]
  rcases hb32 : probe 32 <;> rcases hb64 : probe 64 <;> rcases hb128 : probe 128 <;>
    rcases hb16 : probe 16 <;> rcases hb1 : probe 1 <;>
    simp [hb32, hb64, hb128, hb16, hb1, s2, s5, newResult]

/-- Helper: adding fuel does not change a loop run that already finished. -/
lemma newLoop_mono (probe : Nat → Bool) :
    ∀ (f c : Nat) (s : state) (o : NewOutcome),
      newLoop probe f c s = some o → newLoop probe (f + 1) c s = some o := by
  intro f
  induction f with
  | zero => intro c s o h; simp [newLoop] at h
  | succ f ih =>
    intro c s o h
    rw [newLoop] at h ⊢
    cases hstep : newLoopStep probe c s with
    | inr o2 => rw [hstep] at h; exact h
    | inl p =>
      obtain ⟨c2, s2⟩ := p
      rw [hstep] at h
      exact ih _ _ _ h

/-- Helper: any fuel of at least 4 computes `newResult`. -/
lemma newLoop_init_eval_ge (probe : Nat → Bool) (fuel : Nat) (h : 4 ≤ fuel) :
    newLoop probe fuel 2 .init = some (newResult probe) := by
  obtain ⟨k, rfl⟩ := Nat.exists_eq_add_of_le h
  clear h
  induction k with
  | zero => exact newLoop_init_eval probe
  | succ k ih =>
    have : 4 + (k + 1) = (4 + k) + 1 := by omega
    rw [this]
    exact newLoop_mono probe _ _ _ _ ih

/-- Number of binary digits of a natural number (0 for 0), computed with
structural fuel so that the kernel can evaluate it. -/
def bitWidthAux : Nat → Nat → Nat
  | 0, _ => 0
  | f + 1, n => if n = 0 then 0 else bitWidthAux f (n / 2) + 1

/-- Number of binary digits; 128 units of fuel cover every value produced by
the sorter's size arithmetic. -/
def bitWidth (n : Nat) : Nat := bitWidthAux 128 n

/-- Value of `n as f32` for a natural number `n` (below the `f32` overflow
threshold): round `n` to the nearest integer with at most 24 significant
bits, ties to even. -/
def roundF32 (n : Nat) : Nat :=
  let s := bitWidth n - 24
  let q := n / 2 ^ s
  let r := n % 2 ^ s
  if 2 * r < 2 ^ s then q * 2 ^ s
  else if 2 ^ s < 2 * r then (q + 1) * 2 ^ s
  else if q % 2 = 0 then q * 2 ^ s else (q + 1) * 2 ^ s

/-- Value of `(n as f32 / histogram_wg_size as f32).ceil() as u32` (source
line 360): the division by 256 and the ceiling are exact on `f32`, so the
result is the ceiling division of `roundF32 n` by 256, saturated to `u32` by
the `as` cast. -/
def zeroDispatchCount (n : Nat) : Nat :=
  min ((roundF32 n + (histogram_wg_size - 1)) / histogram_wg_size) (u32Size - 1)

/-- The five compute pipelines of the sorter, named as the `GPURSSorter`
fields holding them (source lines 31-35). -/
inductive Pipeline
  | zero_p
  | histogram_p
  | prefix_p
  | scatter_even_p
  | scatter_odd_p
deriving DecidableEq, Repr

/-- One recorded `dispatch_workgroups(x, 1, 1)` call: the pipeline set on the
pass and the workgroup count `x`. -/
structure Dispatch where
  pipeline : Pipeline
  workgroups : Nat
deriving DecidableEq, Repr

/-- Embedding of `GPURSSorter::record_calculate_histogram` (source lines
342-371): appends the `zero_histograms` dispatch (whose count goes through
`f32`) and the `calculate_histogram` dispatch (`hist_blocks_ru as u32`). -/
def record_calculate_histogram (keysize : Nat) (encoder : List Dispatch) :
    List Dispatch :=
  let sh := get_scatter_histogram_sizes keysize
  let histo_size := rs_radix_size
  let n := usizeAdd
    (usizeMul (usizeSub (usizeAdd rs_keyval_size sh.scatter_blocks_ru) 1) histo_size)
    (if keysize < sh.count_ru_histo then sh.count_ru_histo - keysize else 0)
  encoder ++ [⟨.zero_p, zeroDispatchCount n⟩, ⟨.histogram_p, u32cast sh.histo_blocks_ru⟩]

/-- Embedding of `GPURSSorter::record_prefix_histogram` (source lines
373-379): one `prefix_histogram` dispatch of `passes as u32` workgroups. -/
def record_prefix_histogram (passes : Nat) (encoder : List Dispatch) :
    List Dispatch :=
  encoder ++ [⟨.prefix_p, u32cast passes⟩]

/-- Embedding of `GPURSSorter::record_scatter_keys` (source lines 381-398):
`assert!(passes == 4)`, then four scatter dispatches even, odd, even, odd of
`scatter_blocks_ru as u32` workgroups each.  `none` models the failed
assertion. -/
def record_scatter_keys (passes keysize : Nat) (encoder : List Dispatch) :
    Option (List Dispatch) :=
  if passes = 4 then
    let sh := get_scatter_histogram_sizes keysize
    some (encoder ++
      [⟨.scatter_even_p, u32cast sh.scatter_blocks_ru⟩,
        ⟨.scatter_odd_p, u32cast sh.scatter_blocks_ru⟩,
        ⟨.scatter_even_p, u32cast sh.scatter_blocks_ru⟩,
        ⟨.scatter_odd_p, u32cast sh.scatter_blocks_ru⟩])
  else none

/-- Embedding of `GPURSSorter::record_sort` (source lines 400-404): histogram
recording, prefix recording with `passes = 4`, scatter recording with
`passes = 4`.  It only appends to the encoder; nothing is submitted. -/
def record_sort (keysize : Nat) (encoder : List Dispatch) :
    Option (List Dispatch) :=
  record_scatter_keys 4 keysize
    (record_prefix_histogram 4 (record_calculate_histogram keysize encoder))

/-- The `wgpu::BufferUsages` flags used by the sorter. -/
structure BufferUsages where
  storage : Bool
  copy_dst : Bool
  copy_src : Bool
deriving DecidableEq, Repr

/-- A created `wgpu::Buffer`: its byte size (a `u64`) and usage flags. -/
structure BufferDescriptor where
  size : Nat
  usage : BufferUsages
deriving DecidableEq, Repr

/-- Embedding of `GPURSSorter::create_keyval_buffers` (source lines 243-260):
two storage buffers of `count_ru_histo * size_of::<f32>()` bytes each, with
STORAGE, COPY_DST and COPY_SRC usage. -/
def create_keyval_buffers (keysize : Nat) :
    BufferDescriptor × BufferDescriptor :=
  let sh := get_scatter_histogram_sizes keysize
  let size := usizeMul sh.count_ru_histo 4
  (⟨size, ⟨true, true, true⟩⟩, ⟨size, ⟨true, true, true⟩⟩)

/-- Embedding of `GPURSSorter::create_internal_mem_buffer` (source lines
265-305): one storage buffer of
`(rs_keyval_size + scatter_blocks_ru - 1) * histo_size` bytes, where
`histo_size = rs_radix_size * size_of::<u32>()`. -/
def create_internal_mem_buffer (keysize : Nat) : BufferDescriptor :=
  let sh := get_scatter_histogram_sizes keysize
  let histo_size := usizeMul rs_radix_size 4
  let internal_size :=
    usizeMul (usizeSub (usizeAdd rs_keyval_size sh.scatter_blocks_ru) 1) histo_size
  ⟨internal_size, ⟨true, true, true⟩⟩

/-- The `GeneralInfo` uniform record (source lines 39-46), six `u32` fields
in declaration order. -/
structure GeneralInfo where
  histogram_size : Nat
  keys_size : Nat
  padded_size : Nat
  passes : Nat
  even_pass : Nat
  odd_pass : Nat
deriving DecidableEq, Repr

/-- Embedding of `GPURSSorter::create_bind_group` (source lines 307-340) as
far as the claims reach: the buffer-size check of lines 309-311 (`none`
models the panic) and the `GeneralInfo` value uploaded to the uniform buffer
on line 312, with the two `as u32` casts of the source. -/
def create_bind_group (keysize sizeA sizeB : Nat) : Option GeneralInfo :=
  let sh := get_scatter_histogram_sizes keysize
  if sizeA ≠ usizeMul sh.count_ru_histo 4 ∨ sizeB ≠ usizeMul sh.count_ru_histo 4 then
    none
  else
    some ⟨0, u32cast keysize, u32cast sh.count_ru_histo, 4, 0, 0⟩

/-- Little-endian byte image of a `u32` value. -/
def u32LEBytes (v : Nat) : List Nat :=
  [v % 256, v / 2 ^ 8 % 256, v / 2 ^ 16 % 256, v / 2 ^ 24 % 256]

/-- Byte image of a `GeneralInfo` record as `any_as_u8_slice` reads it
(source lines 48-50) under rustc's layout of this struct: the six `u32`
fields little-endian in declaration order, no padding. -/
def generalInfoBytes (g : GeneralInfo) : List Nat :=
  u32LEBytes g.histogram_size ++ u32LEBytes g.keys_size ++ u32LEBytes g.padded_size ++
    u32LEBytes g.passes ++ u32LEBytes g.even_pass ++ u32LEBytes g.odd_pass

/-- Read back the little-endian `u32` at byte offset `off`. -/
def readU32LE (bytes : List Nat) (off : Nat) : Nat :=
  bytes.getD off 0 + 2 ^ 8 * bytes.getD (off + 1) 0 +
    2 ^ 16 * bytes.getD (off + 2) 0 + 2 ^ 24 * bytes.getD (off + 3) 0

/-- Helper: `bitWidthAux` is bounded by the binary size of its argument. -/
lemma bitWidthAux_le (f : Nat) : ∀ (k m : Nat), m < 2 ^ k → bitWidthAux f m ≤ k := by
  induction f with
  | zero => intro k m _; simp [bitWidthAux]
  | succ f ih =>
    intro k m hm
    rw [bitWidthAux]
    by_cases h0 : m = 0
    · simp [h0]
    · rw [if_neg h0]
      have hk : 1 ≤ k := by
        by_contra hk
        have : k = 0 := by omega
        subst this
        simp at hm
        omega
      have hm2 : m / 2 < 2 ^ (k - 1) := by
        have : 2 ^ k = 2 ^ (k - 1) * 2 := by
          rw [← Nat.pow_succ]
          congr 1
          omega
        rw [Nat.div_lt_iff_lt_mul (by norm_num)]
        omega
      have := ih (k - 1) (m / 2) hm2
      omega

/-- Helper: naturals with at most 24 significant bits are exact in `f32`. -/
lemma roundF32_eq_of_lt (m : Nat) (hm : m < 2 ^ 24) : roundF32 m = m := by
  have hw : bitWidth m ≤ 24 := bitWidthAux_le 128 24 m hm
  have hs : bitWidth m - 24 = 0 := by omega
  simp [roundF32, hs, Nat.mod_one]

/-- Helper: below `2 ^ 24` the `f32` ceiling pipeline is the exact ceiling
division by 256. -/
lemma zeroDispatchCount_small (m : Nat) (hm : m < 2 ^ 24) :
    zeroDispatchCount m = (m + 255) / 256 := by
  have hd : (m + 255) / 256 ≤ m + 255 := Nat.div_le_self _ _
  simp only [zeroDispatchCount, roundF32_eq_of_lt m hm, histogram_wg_size, u32Size]
  norm_num
  omega

/-- C1 counterexample: with the monotone probe for `w* = 128` (every
candidate width passes), `GPURSSorter::new` does not return a sorter of
subgroup size 128 — it reaches the index bound and panics. -/
theorem new_calibration_128_cex :
    GPURSSorter_new (fun w => decide (w ≤ 128)) = some .panicked ∧
    GPURSSorter_new (fun w => decide (w ≤ 128)) ≠ some (.sorter 128) := by
  decide

/-- C1 (amended): with a monotone probe that passes exactly the widths
`w ≤ w*`, the calibration loop of `GPURSSorter::new` — starting at ladder
index 2 and following the init/increasing/decreasing state machine —
returns a sorter of subgroup size `w*` for `w* ∈ {1, 16, 32, 64}`; if the
probe fails for every candidate it panics, and if it passes for every
candidate (`w* = 128`) it also panics instead of selecting 128. -/
theorem new_calibration_selects (wstar : Nat)
    (h : wstar ∈ ([1, 16, 32, 64] : List Nat)) :
    GPURSSorter_new (fun w => decide (w ≤ wstar)) = some (.sorter wstar) ∧
    GPURSSorter_new (fun _ => false) = some .panicked ∧
    GPURSSorter_new (fun w => decide (w ≤ 128)) = some .panicked := by
  refine ⟨?_, by decide, by decide⟩
  have h2 : wstar = 1 ∨ wstar = 16 ∨ wstar = 32 ∨ wstar = 64 := by simpa using h
  rcases h2 with rfl | rfl | rfl | rfl <;> decide

/-- C1 witness: the amended selection theorem at `w* = 32`. -/
theorem new_calibration_selects_witness :
    GPURSSorter_new (fun w => decide (w ≤ 32)) = some (.sorter 32) ∧
    GPURSSorter_new (fun _ => false) = some .panicked ∧
    GPURSSorter_new (fun w => decide (w ≤ 128)) = some .panicked :=
  new_calibration_selects 32 (by decide)

/-- C10: the `cur_size < 0` half of the guard is vacuous for the unsigned
index; a probe failure at ladder index 0 in the decreasing state wraps the
decrement to `2 ^ 64 - 1` and the loop panics on the next iteration through
the `cur_size >= sizes.len()` test; and for every assignment of probe
outcomes the loop terminates with a sorter or a panic — 4 iterations always
suffice and more fuel changes nothing. -/
theorem new_loop_always_terminates :
    (∀ i : Nat, ((i < 0 ∨ sizes.length ≤ i) ↔ sizes.length ≤ i)) ∧
    usizeSub 0 1 = 2 ^ 64 - 1 ∧
    (∀ probe : Nat → Bool, probe (sizes.getD 0 0) = false →
      newLoopStep probe 0 .decreasing = .inl (usizeSub 0 1, .decreasing) ∧
      newLoop probe 2 0 .decreasing = some .panicked) ∧
    (∀ (probe : Nat → Bool) (fuel : Nat), 4 ≤ fuel →
      ∃ o : NewOutcome, newLoop probe fuel 2 .init = some o) := by
  refine ⟨fun i => by omega, by decide, ?_, ?_⟩
  · intro probe hp
    have hp1 : probe 1 = false := hp
    have t6 : newLoopStep probe 0 .decreasing =
        if probe 1 then .inr (.sorter 1)
        else .inl (18446744073709551615, .decreasing) := rfl
    have hsub : usizeSub 0 1 = 18446744073709551615 := by decide
    constructor
    · rw [t6, hp1, hsub]
      simp
    · rw [show (2:Nat) = 1 + 1 from rfl, newLoop_succ, t6, hp1]
      simp only [Bool.false_eq_true, if_false]
      rw [show (1:Nat) = 0 + 1 from rfl, newLoop_succ,
        show newLoopStep probe 18446744073709551615 .decreasing = .inr .panicked from rfl]
  · intro probe fuel hf
    exact ⟨newResult probe, newLoop_init_eval_ge probe fuel hf⟩

/-- C10 witness: the termination conjunct at the all-fail probe with the
minimal fuel. -/
theorem new_loop_always_terminates_witness :
    ∃ o : NewOutcome, newLoop (fun _ => false) 4 2 .init = some o :=
  new_loop_always_terminates.2.2.2 (fun _ => false) 4 (by norm_num)

/-- C2 counterexample: at the largest `usize` keysize the wrapping addition
`keysize + scatter_block_kvs` makes the code return `scatter_blocks_ru = 0`,
not the spec's `⌈N / 3840⌉`. -/
theorem get_scatter_histogram_sizes_overflow_cex :
    (get_scatter_histogram_sizes (2 ^ 64 - 1)).scatter_blocks_ru = 0 ∧
    (spec_get_scatter_histogram_sizes (2 ^ 64 - 1)).scatter_blocks_ru =
      4803839602528530 := by
  decide

/-- C2 (amended): for `1 ≤ N ≤ 2 ^ 64 - 4096` no `usize` operation wraps and
`get_scatter_histogram_sizes` returns exactly the six values of the spec's
size-calculator algorithm; for larger `N` the wrapping arithmetic diverges
from the spec formulas. -/
theorem get_scatter_histogram_sizes_matches_spec (N : Nat) (h1 : 1 ≤ N)
    (h2 : N ≤ 2 ^ 64 - 4096) :
    get_scatter_histogram_sizes N = spec_get_scatter_histogram_sizes N := by
  rw [get_sizes_eval N h2]
  simp only [spec_get_scatter_histogram_sizes, histogram_wg_size,
    rs_scatter_block_rows, rs_histogram_block_rows]
  norm_num
  rw [Nat.add_comm ((N + 3839) / 3840 * 3840) 3839,
    Nat.add_mul_div_right _ _ (by norm_num : (0:Nat) < 3840)]
  norm_num

/-- C2 witness: the spec refinement at `N = 3841`. -/
theorem get_scatter_histogram_sizes_matches_spec_witness :
    get_scatter_histogram_sizes 3841 = spec_get_scatter_histogram_sizes 3841 :=
  get_scatter_histogram_sizes_matches_spec 3841 (by norm_num) (by norm_num)

/-- C3 counterexample: at the largest `usize` keysize the padded count
collapses to 0, strictly below the keysize. -/
theorem padding_shrinks_overflow_cex :
    (get_scatter_histogram_sizes (2 ^ 64 - 1)).count_ru_scatter = 0 ∧
    ¬(2 ^ 64 - 1 ≤ (get_scatter_histogram_sizes (2 ^ 64 - 1)).count_ru_scatter) := by
  decide

/-- C3 (amended): for `1 ≤ N ≤ 2 ^ 64 - 4096` the padded sizes never shrink
the data: `count_ru_histo ≥ count_ru_scatter ≥ N`. -/
theorem padding_never_shrinks (N : Nat) (h1 : 1 ≤ N) (h2 : N ≤ 2 ^ 64 - 4096) :
    (get_scatter_histogram_sizes N).count_ru_scatter ≤
      (get_scatter_histogram_sizes N).count_ru_histo ∧
    N ≤ (get_scatter_histogram_sizes N).count_ru_scatter := by
  rw [get_sizes_eval N h2]
  refine ⟨le_refl _, ?_⟩
  show N ≤ (N + 3839) / 3840 * 3840
  have hdm := Nat.div_add_mod (N + 3839) 3840
  have hlt : (N + 3839) % 3840 < 3840 := Nat.mod_lt _ (by norm_num)
  omega

/-- C3 witness: the padding bounds at `N = 3841`. -/
theorem padding_never_shrinks_witness :
    (get_scatter_histogram_sizes 3841).count_ru_scatter ≤
      (get_scatter_histogram_sizes 3841).count_ru_histo ∧
    3841 ≤ (get_scatter_histogram_sizes 3841).count_ru_scatter :=
  padding_never_shrinks 3841 (by norm_num) (by norm_num)

/-- C4 counterexample: at `N = 2 ^ 64 - 4095` the second rounding level is
not the identity — `count_ru_scatter + histo_block_kvs` wraps, so
`count_ru_histo = 0` while `count_ru_scatter = 2 ^ 64 - 256`. -/
theorem count_ru_histo_ne_scatter_cex :
    (get_scatter_histogram_sizes (2 ^ 64 - 4095)).count_ru_histo ≠
      (get_scatter_histogram_sizes (2 ^ 64 - 4095)).count_ru_scatter := by
  decide

/-- C4 (amended): for every keysize up to `2 ^ 64 - 4096` the second rounding
level is vestigial: `count_ru_histo = count_ru_scatter`, because
`histo_block_kvs = scatter_block_kvs` makes the second round-up the
identity on the already-rounded `count_ru_scatter`. -/
theorem count_ru_histo_eq_scatter (N : Nat) (h : N ≤ 2 ^ 64 - 4096) :
    (get_scatter_histogram_sizes N).count_ru_histo =
      (get_scatter_histogram_sizes N).count_ru_scatter := by
  rw [get_sizes_eval N h]

/-- C4 witness: the vestigial rounding at `N = 12345`. -/
theorem count_ru_histo_eq_scatter_witness :
    (get_scatter_histogram_sizes 12345).count_ru_histo =
      (get_scatter_histogram_sizes 12345).count_ru_scatter :=
  count_ru_histo_eq_scatter 12345 (by norm_num)

/-- C5 counterexample: at `N = 3840 * 2 ^ 32` the `as u32` cast truncates the
histogram dispatch to 0 workgroups although `histo_blocks_ru = 2 ^ 32` (and
the scatter dispatches likewise). -/
theorem record_sort_u32_truncation_cex :
    record_sort (3840 * 2 ^ 32) [] = some
      [⟨.zero_p, 4294967295⟩, ⟨.histogram_p, 0⟩, ⟨.prefix_p, 4⟩,
        ⟨.scatter_even_p, 0⟩, ⟨.scatter_odd_p, 0⟩,
        ⟨.scatter_even_p, 0⟩, ⟨.scatter_odd_p, 0⟩] ∧
    (get_scatter_histogram_sizes (3840 * 2 ^ 32)).histo_blocks_ru = 2 ^ 32 := by
  decide

/-- C5 (amended): for `1 ≤ N ≤ 3840 * (2 ^ 32 - 1)` (so that the block counts
fit in `u32`), `record_sort` appends to the caller's encoder exactly seven
dispatches in order — `zero_histograms`, `calculate_histogram` with
`histo_blocks_ru` workgroups, `prefix_histogram` with 4 workgroups, then
scatter even, odd, even, odd with `scatter_blocks_ru` workgroups each — and
submits nothing (it is a pure function of the encoder). -/
theorem record_sort_seven_dispatches (N : Nat) (enc : List Dispatch)
    (h1 : 1 ≤ N) (h2 : N ≤ 3840 * (2 ^ 32 - 1)) :
    ∃ z, record_sort N enc = some (enc ++
      [⟨.zero_p, z⟩,
        ⟨.histogram_p, (get_scatter_histogram_sizes N).histo_blocks_ru⟩,
        ⟨.prefix_p, 4⟩,
        ⟨.scatter_even_p, (get_scatter_histogram_sizes N).scatter_blocks_ru⟩,
        ⟨.scatter_odd_p, (get_scatter_histogram_sizes N).scatter_blocks_ru⟩,
        ⟨.scatter_even_p, (get_scatter_histogram_sizes N).scatter_blocks_ru⟩,
        ⟨.scatter_odd_p, (get_scatter_histogram_sizes N).scatter_blocks_ru⟩]) := by
  have h3 : N ≤ 2 ^ 64 - 4096 := le_trans h2 (by norm_num)
  have hs := get_sizes_eval N h3
  have hB : (N + 3839) / 3840 ≤ 2 ^ 32 - 1 := by
    have hd : (N + 3839) / 3840 ≤ (3840 * (2 ^ 32 - 1) + 3839) / 3840 :=
      Nat.div_le_div_right (by omega)
    have he : (3840 * (2 ^ 32 - 1) + 3839) / 3840 = 2 ^ 32 - 1 := by norm_num
    omega
  have hcast : u32cast ((N + 3839) / 3840) = (N + 3839) / 3840 := by
    simp only [u32cast, u32Size]
    exact Nat.mod_eq_of_lt (by omega)
  simp only [record_sort, record_calculate_histogram, record_prefix_histogram,
    record_scatter_keys, hs, if_pos rfl]
  simp only [hcast]
  norm_num [u32cast, u32Size]

/-- C5 witness: the seven dispatches at `N = 3841` on an empty encoder. -/
theorem record_sort_seven_dispatches_witness :
    ∃ z, record_sort 3841 [] = some ([] ++
      [⟨.zero_p, z⟩,
        ⟨.histogram_p, (get_scatter_histogram_sizes 3841).histo_blocks_ru⟩,
        ⟨.prefix_p, 4⟩,
        ⟨.scatter_even_p, (get_scatter_histogram_sizes 3841).scatter_blocks_ru⟩,
        ⟨.scatter_odd_p, (get_scatter_histogram_sizes 3841).scatter_blocks_ru⟩,
        ⟨.scatter_even_p, (get_scatter_histogram_sizes 3841).scatter_blocks_ru⟩,
        ⟨.scatter_odd_p, (get_scatter_histogram_sizes 3841).scatter_blocks_ru⟩]) :=
  record_sort_seven_dispatches 3841 [] (by norm_num) (by norm_num)

/-- C6 counterexample: at `N = 251646719` the zeroing ground truth is
`M = 2 ^ 24 + 1`, which `f32` rounds down to `2 ^ 24`, so the code dispatches
65536 workgroups while `⌈M / 256⌉ = 65537` — one workgroup short. -/
theorem zero_dispatch_f32_cex :
    record_calculate_histogram 251646719 [] =
      [⟨.zero_p, 65536⟩, ⟨.histogram_p, 65533⟩] ∧
    ((rs_keyval_size + (get_scatter_histogram_sizes 251646719).scatter_blocks_ru - 1)
        * rs_radix_size +
      ((get_scatter_histogram_sizes 251646719).count_ru_histo - 251646719) + 255) / 256
      = 65537 := by
  decide

/-- C6 (amended): for `1 ≤ N ≤ 251585280` (which keeps `M` below `2 ^ 24`, the
exact-integer range of `f32`), the zeroing dispatch recorded by
`record_calculate_histogram` uses exactly `⌈M / 256⌉` workgroups with
`M = (rs_keyval_size + scatter_blocks_ru - 1) * rs_radix_size +
max(0, count_ru_histo - N)`; for larger `N` the `f32` rounding of `M` can
fall short of the exact ceiling. -/
theorem zero_dispatch_ceil (N : Nat) (enc : List Dispatch)
    (h1 : 1 ≤ N) (h2 : N ≤ 251585280) :
    record_calculate_histogram N enc = enc ++
      [⟨.zero_p,
          ((rs_keyval_size + (get_scatter_histogram_sizes N).scatter_blocks_ru - 1)
              * rs_radix_size +
            ((get_scatter_histogram_sizes N).count_ru_histo - N) + 255) / 256⟩,
        ⟨.histogram_p, (get_scatter_histogram_sizes N).histo_blocks_ru⟩] := by
  have h3 : N ≤ 2 ^ 64 - 4096 := le_trans h2 (by norm_num)
  have hs := get_sizes_eval N h3
  have hBle : (N + 3839) / 3840 ≤ 65517 := by
    have hd : (N + 3839) / 3840 ≤ (251585280 + 3839) / 3840 :=
      Nat.div_le_div_right (by omega)
    have he : (251585280 + 3839) / 3840 = 65517 := by norm_num
    omega
  have hdm := Nat.div_add_mod (N + 3839) 3840
  have hmlt : (N + 3839) % 3840 < 3840 := Nat.mod_lt _ (by norm_num)
  have hcsge : N ≤ (N + 3839) / 3840 * 3840 := by omega
  have hcsle : (N + 3839) / 3840 * 3840 ≤ N + 3839 := by omega
  simp only [record_calculate_histogram, hs, rs_keyval_size, rs_radix_log2,
    rs_radix_size]
  norm_num
  have e1 : usizeAdd 4 ((N + 3839) / 3840) = 4 + (N + 3839) / 3840 := by
    simp only [usizeAdd, usizeSize]
    exact Nat.mod_eq_of_lt (by omega)
  have e2 : usizeSub (4 + (N + 3839) / 3840) 1 = 3 + (N + 3839) / 3840 := by
    simp only [usizeSub, usizeSize]
    have : 4 + (N + 3839) / 3840 + 2 ^ 64 - 1
        = (3 + (N + 3839) / 3840) + 1 * 2 ^ 64 := by omega
    rw [this, Nat.add_mul_mod_self_right]
    exact Nat.mod_eq_of_lt (by omega)
  have e3 : usizeMul (3 + (N + 3839) / 3840) 256 = (3 + (N + 3839) / 3840) * 256 := by
    simp only [usizeMul, usizeSize]
    exact Nat.mod_eq_of_lt (by omega)
  have e4 : (if N < (N + 3839) / 3840 * 3840 then (N + 3839) / 3840 * 3840 - N else 0)
      = (N + 3839) / 3840 * 3840 - N := by
    split <;> omega
  have e5 : usizeAdd ((3 + (N + 3839) / 3840) * 256) ((N + 3839) / 3840 * 3840 - N)
      = (3 + (N + 3839) / 3840) * 256 + ((N + 3839) / 3840 * 3840 - N) := by
    simp only [usizeAdd, usizeSize]
    exact Nat.mod_eq_of_lt (by omega)
  rw [e1, e2, e3, e4, e5]
  have hM : (3 + (N + 3839) / 3840) * 256 + ((N + 3839) / 3840 * 3840 - N) < 2 ^ 24 := by
    have : (3 + (N + 3839) / 3840) * 256 ≤ (3 + 65517) * 256 := by
      apply Nat.mul_le_mul_right
      omega
    omega
  rw [zeroDispatchCount_small _ hM]
  have e7 : u32cast ((N + 3839) / 3840) = (N + 3839) / 3840 := by
    simp only [u32cast, u32Size]
    exact Nat.mod_eq_of_lt (by omega)
  exact ⟨rfl, e7⟩

/-- C6 witness: the exact zeroing ceiling at `N = 5` on an empty encoder. -/
theorem zero_dispatch_ceil_witness :
    record_calculate_histogram 5 [] = [] ++
      [⟨.zero_p,
          ((rs_keyval_size + (get_scatter_histogram_sizes 5).scatter_blocks_ru - 1)
              * rs_radix_size +
            ((get_scatter_histogram_sizes 5).count_ru_histo - 5) + 255) / 256⟩,
        ⟨.histogram_p, (get_scatter_histogram_sizes 5).histo_blocks_ru⟩] :=
  zero_dispatch_ceil 5 [] (by norm_num) (by norm_num)

/-- C7 counterexample: at `N = 2 ^ 63` the byte size `count_ru_histo * 4`
overflows `usize`, so the created keyval buffers are 7168 bytes instead of
`count_ru_histo * 4 = 2 ^ 65 + 7168` bytes. -/
theorem keyval_buffer_size_wrap_cex :
    (create_keyval_buffers (2 ^ 63)).1.size ≠
      (get_scatter_histogram_sizes (2 ^ 63)).count_ru_histo * 4 ∧
    (create_keyval_buffers (2 ^ 63)).1.size = 7168 := by
  decide

/-- C7 (amended): for `1 ≤ N ≤ 2 ^ 62 - 3840` (so no byte count overflows
`usize`), `create_keyval_buffers` creates two storage buffers of exactly
`count_ru_histo * 4` bytes each with storage, copy-source and
copy-destination usage, and `create_internal_mem_buffer` creates one storage
buffer of exactly `(rs_keyval_size + scatter_blocks_ru - 1) * rs_radix_size
* 4` bytes. -/
theorem buffer_factory_sizes (N : Nat) (h1 : 1 ≤ N) (h2 : N ≤ 2 ^ 62 - 3840) :
    create_keyval_buffers N =
      (⟨(get_scatter_histogram_sizes N).count_ru_histo * 4, ⟨true, true, true⟩⟩,
        ⟨(get_scatter_histogram_sizes N).count_ru_histo * 4, ⟨true, true, true⟩⟩) ∧
    create_internal_mem_buffer N =
      ⟨(rs_keyval_size + (get_scatter_histogram_sizes N).scatter_blocks_ru - 1) *
          (rs_radix_size * 4), ⟨true, true, true⟩⟩ := by
  have h3 : N ≤ 2 ^ 64 - 4096 := le_trans h2 (by norm_num)
  have hs := get_sizes_eval N h3
  have hcsle : (N + 3839) / 3840 * 3840 ≤ N + 3839 := Nat.div_mul_le_self _ _
  constructor
  · simp only [create_keyval_buffers, hs]
    have e : usizeMul ((N + 3839) / 3840 * 3840) 4 = (N + 3839) / 3840 * 3840 * 4 := by
      simp only [usizeMul, usizeSize]
      exact Nat.mod_eq_of_lt (by omega)
    rw [e]
  · simp only [create_internal_mem_buffer, hs, rs_keyval_size, rs_radix_log2,
      rs_radix_size]
    norm_num
    have e0 : usizeMul 256 4 = 1024 := by decide
    have e1 : usizeAdd 4 ((N + 3839) / 3840) = 4 + (N + 3839) / 3840 := by
      simp only [usizeAdd, usizeSize]
      exact Nat.mod_eq_of_lt (by omega)
    have e2 : usizeSub (4 + (N + 3839) / 3840) 1 = 3 + (N + 3839) / 3840 := by
      simp only [usizeSub, usizeSize]
      have : 4 + (N + 3839) / 3840 + 2 ^ 64 - 1
          = (3 + (N + 3839) / 3840) + 1 * 2 ^ 64 := by omega
      rw [this, Nat.add_mul_mod_self_right]
      exact Nat.mod_eq_of_lt (by omega)
    have e3 : usizeMul (3 + (N + 3839) / 3840) 1024
        = (3 + (N + 3839) / 3840) * 1024 := by
      simp only [usizeMul, usizeSize]
      exact Nat.mod_eq_of_lt (by omega)
    rw [e0, e1, e2, e3]

/-- C7 witness: the factory sizes at `N = 1`. -/
theorem buffer_factory_sizes_witness :
    create_keyval_buffers 1 =
      (⟨(get_scatter_histogram_sizes 1).count_ru_histo * 4, ⟨true, true, true⟩⟩,
        ⟨(get_scatter_histogram_sizes 1).count_ru_histo * 4, ⟨true, true, true⟩⟩) ∧
    create_internal_mem_buffer 1 =
      ⟨(rs_keyval_size + (get_scatter_histogram_sizes 1).scatter_blocks_ru - 1) *
          (rs_radix_size * 4), ⟨true, true, true⟩⟩ :=
  buffer_factory_sizes 1 (by norm_num) (by norm_num)

/-- C8 counterexample: at `N = 2 ^ 63` buffers of 7168 bytes (the wrapped
product) are accepted by `create_bind_group` although their size differs from
the true `count_ru_histo * 4 = 2 ^ 65 + 7168` — the panic condition compares
against the product modulo `2 ^ 64`, not the mathematical product. -/
theorem create_bind_group_wrap_cex :
    create_bind_group (2 ^ 63) 7168 7168 ≠ none ∧
    (7168 : Nat) ≠ (get_scatter_histogram_sizes (2 ^ 63)).count_ru_histo * 4 := by
  decide

/-- C8 (amended): `create_bind_group` panics exactly when a keyval buffer
size differs from `count_ru_histo * 4` computed in `usize` (that is, modulo
`2 ^ 64`), and otherwise returns the uniform record; `record_scatter_keys`
panics exactly when `passes ≠ 4`, and otherwise records the scatter
dispatches. -/
theorem config_errors_iff (N a b p : Nat) (enc : List Dispatch) :
    (create_bind_group N a b = none ↔
      (a ≠ usizeMul (get_scatter_histogram_sizes N).count_ru_histo 4 ∨
        b ≠ usizeMul (get_scatter_histogram_sizes N).count_ru_histo 4)) ∧
    (record_scatter_keys p N enc = none ↔ p ≠ 4) := by
  constructor
  · simp only [create_bind_group]
    by_cases hc : (a ≠ usizeMul (get_scatter_histogram_sizes N).count_ru_histo 4 ∨
        b ≠ usizeMul (get_scatter_histogram_sizes N).count_ru_histo 4)
    · rw [if_pos hc]
      simp [hc]
    · rw [if_neg hc]
      simp [hc]
  · simp only [record_scatter_keys]
    by_cases hp : p = 4
    · rw [if_pos hp]
      simp [hp]
    · rw [if_neg hp]
      simp [hp]

/-- C9 counterexample: at `N = 2 ^ 32` the uploaded `keys_size` is
`N as u32 = 0`, not `N`. -/
theorem general_info_keys_size_cex :
    create_bind_group (2 ^ 32)
        (usizeMul (get_scatter_histogram_sizes (2 ^ 32)).count_ru_histo 4)
        (usizeMul (get_scatter_histogram_sizes (2 ^ 32)).count_ru_histo 4) =
      some ⟨0, 0, 3584, 4, 0, 0⟩ ∧
    (0 : Nat) ≠ 2 ^ 32 := by
  decide

/-- C9 (amended): the `GeneralInfo` byte image is exactly 24 bytes, six
little-endian `u32` fields in declaration order (each read back from its
offset modulo `2 ^ 32`); and for `1 ≤ N ≤ 2 ^ 32 - 256` (so both `as u32`
casts are lossless) `create_bind_group` with correctly sized buffers uploads
`histogram_size = 0`, `keys_size = N`, `padded_size = count_ru_histo`,
`passes = 4`, `even_pass = 0`, `odd_pass = 0`. -/
theorem general_info_layout_and_upload (N : Nat) (h1 : 1 ≤ N)
    (h2 : N ≤ 2 ^ 32 - 256) :
    (∀ g : GeneralInfo,
      (generalInfoBytes g).length = 24 ∧
      readU32LE (generalInfoBytes g) 0 = g.histogram_size % 2 ^ 32 ∧
      readU32LE (generalInfoBytes g) 4 = g.keys_size % 2 ^ 32 ∧
      readU32LE (generalInfoBytes g) 8 = g.padded_size % 2 ^ 32 ∧
      readU32LE (generalInfoBytes g) 12 = g.passes % 2 ^ 32 ∧
      readU32LE (generalInfoBytes g) 16 = g.even_pass % 2 ^ 32 ∧
      readU32LE (generalInfoBytes g) 20 = g.odd_pass % 2 ^ 32) ∧
    create_bind_group N
        (usizeMul (get_scatter_histogram_sizes N).count_ru_histo 4)
        (usizeMul (get_scatter_histogram_sizes N).count_ru_histo 4) =
      some ⟨0, N, (get_scatter_histogram_sizes N).count_ru_histo, 4, 0, 0⟩ := by
  constructor
  · rintro ⟨x1, x2, x3, x4, x5, x6⟩
    refine ⟨by simp [generalInfoBytes, u32LEBytes], ?_, ?_, ?_, ?_, ?_, ?_⟩ <;>
      · simp [generalInfoBytes, u32LEBytes, readU32LE, List.getD]
        omega
  · have h3 : N ≤ 2 ^ 64 - 4096 := le_trans h2 (by norm_num)
    have hs := get_sizes_eval N h3
    have hcsle : (N + 3839) / 3840 * 3840 ≤ N + 3839 := Nat.div_mul_le_self _ _
    have hcsm : (N + 3839) / 3840 * 3840 % 3840 = 0 := Nat.mul_mod_left _ _
    have hchle : (N + 3839) / 3840 * 3840 ≤ 2 ^ 32 - 256 := by omega
    simp only [create_bind_group, hs]
    rw [if_neg (by simp)]
    have ek : u32cast N = N := by
      simp only [u32cast, u32Size]
      exact Nat.mod_eq_of_lt (by omega)
    have ep : u32cast ((N + 3839) / 3840 * 3840) = (N + 3839) / 3840 * 3840 := by
      simp only [u32cast, u32Size]
      exact Nat.mod_eq_of_lt (by omega)
    rw [ek, ep]

/-- C9 witness: the layout and upload facts at `N = 1`. -/
theorem general_info_layout_and_upload_witness :
    (∀ g : GeneralInfo,
      (generalInfoBytes g).length = 24 ∧
      readU32LE (generalInfoBytes g) 0 = g.histogram_size % 2 ^ 32 ∧
      readU32LE (generalInfoBytes g) 4 = g.keys_size % 2 ^ 32 ∧
      readU32LE (generalInfoBytes g) 8 = g.padded_size % 2 ^ 32 ∧
      readU32LE (generalInfoBytes g) 12 = g.passes % 2 ^ 32 ∧
      readU32LE (generalInfoBytes g) 16 = g.even_pass % 2 ^ 32 ∧
      readU32LE (generalInfoBytes g) 20 = g.odd_pass % 2 ^ 32) ∧
    create_bind_group 1
        (usizeMul (get_scatter_histogram_sizes 1).count_ru_histo 4)
        (usizeMul (get_scatter_histogram_sizes 1).count_ru_histo 4) =
      some ⟨0, 1, (get_scatter_histogram_sizes 1).count_ru_histo, 4, 0, 0⟩ :=
  general_info_layout_and_upload 1 (by norm_num) (by norm_num)

end GpuRs
